import Mathlib

/-!
Verification of the equity-research-agent core against its specification.

The development shallowly embeds three parts of the source:
* the DCF valuation engine (`calculateWACC`, `estimateFCFGrowthRate`,
  `calculateDCF`, `calculateSensitivity`, `assessValuation`);
* the rate-limited batch fetch scheduler (`RateLimiter.execute`,
  `RateLimiter.executeBatch`, throttle/backoff timing);
* the persisted SQL schema (`SCHEMA_SQL`).

JavaScript numbers are modelled as exact rationals (ℚ); the floating-point
rounding of the source is not modelled, so numeric statements are about the
exact arithmetic the formulas denote.
-/

/- ======================================================================
   DCF ENGINE (valuation workflows file, `calculateWACC`,
   `estimateFCFGrowthRate`, `calculateDCF`, `calculateSensitivity`,
   `assessValuation`)
   ====================================================================== -/

/-- Interface `DCFInputs`: `freeCashFlow`, `totalDebt`, `cash`,
`sharesOutstanding`, `marketCap` are required numbers; `revenueGrowth`,
`discountRate`, `terminalGrowthRate`, `projectionYears` are optional. -/
structure DCFInputs where
  freeCashFlow : ℚ
  totalDebt : ℚ
  cash : ℚ
  sharesOutstanding : ℚ
  marketCap : ℚ
  revenueGrowth : Option ℚ := none
  discountRate : Option ℚ := none
  terminalGrowthRate : Option ℚ := none
  projectionYears : Option ℕ := none
deriving Repr

/-- Resolution of `inputs.projectionYears || 5`: JavaScript `||` uses the default both when
the field is absent and when it is `0` (falsy). -/
def resolveYears : Option ℕ → ℕ
  | none => 5
  | some n => if n = 0 then 5 else n

/-- Resolution of `inputs.terminalGrowthRate || 3.0`: JavaScript `||` uses the default both
when the field is absent and when it is `0` (falsy). -/
def resolveTG : Option ℚ → ℚ
  | none => 3
  | some t => if t = 0 then 3 else t

/-- Source `calculateWACC(marketCap, customRate?)`: the custom rate wins when
present, otherwise a market-cap-tiered default. -/
def calculateWACC (marketCap : ℚ) (customRate : Option ℚ) : ℚ :=
  match customRate with
  | some r => r
  | none =>
    if 200 * 10 ^ 9 < marketCap then 9.0
    else if 50 * 10 ^ 9 < marketCap then 10.0
    else if 10 * 10 ^ 9 < marketCap then 11.0
    else if 2 * 10 ^ 9 < marketCap then 12.5
    else 14.0

/-- Source `estimateFCFGrowthRate(revenueGrowth, terminalGrowthRate)`. -/
def estimateFCFGrowthRate (revenueGrowth : Option ℚ) (terminalGrowthRate : ℚ) : ℚ :=
  match revenueGrowth with
  | none => (terminalGrowthRate + 8) / 2
  | some rg =>
    let cappedGrowth := min rg 25
    if cappedGrowth < 0 then terminalGrowthRate
    else cappedGrowth * 0.7 + terminalGrowthRate * 0.3

/-- One row of `projectedCashFlows`. -/
structure CashFlowYear where
  year : ℕ
  fcf : ℚ
  presentValue : ℚ
  discountFactor : ℚ
deriving Repr

/-- One entry of the `sensitivity` array. -/
structure Scenario where
  discountRate : ℚ
  growthRate : ℚ
  intrinsicValue : ℚ
deriving Repr

/-- The three labelled entries pushed by `calculateSensitivity`. -/
structure SensitivityResult where
  bear : Scenario
  base : Scenario
  bull : Scenario
deriving Repr

/-- The `assumptions` record of `DCFOutputs`. -/
structure DCFAssumptions where
  discountRate : ℚ
  terminalGrowthRate : ℚ
  projectionYears : ℕ
  initialFCF : ℚ
  fcfGrowthRate : ℚ
deriving Repr

/-- Output record `DCFOutputs` (sans the optional price/upside/recommendation fields,
which `calculateDCF` does not set). -/
structure DCFOutputs where
  intrinsicValue : ℚ
  enterpriseValue : ℚ
  equityValue : ℚ
  assumptions : DCFAssumptions
  projectedCashFlows : List CashFlowYear
  terminalValueNominal : ℚ
  terminalValuePV : ℚ
  sensitivity : SensitivityResult
deriving Repr

/-- The `calcIntrinsicValue` helper inside `calculateSensitivity`: project
`projectionYears` cash flows, add the discounted Gordon terminal value,
subtract net debt, divide by shares. -/
def calcIntrinsicValue (freeCashFlow sharesOutstanding netDebt : ℚ)
    (projectionYears : ℕ) (discountRate fcfGrowth terminalGrowth : ℚ) : ℚ :=
  let sumPV := ∑ i in Finset.range projectionYears,
    freeCashFlow * (1 + fcfGrowth / 100) ^ (i + 1) / (1 + discountRate / 100) ^ (i + 1)
  let finalFCF := freeCashFlow * (1 + fcfGrowth / 100) ^ projectionYears
  let tv := finalFCF * (1 + terminalGrowth / 100) / (discountRate / 100 - terminalGrowth / 100)
  let tvPV := tv / (1 + discountRate / 100) ^ projectionYears
  let enterpriseValue := sumPV + tvPV
  let equityValue := enterpriseValue - netDebt
  equityValue / sharesOutstanding

/-- Source `calculateSensitivity`: bear (+2 discount, −2 growth floored at 0,
−1 terminal floored at 2), base (unchanged), bull (−2 discount floored at 5,
+2 growth capped at 25, +1 terminal capped at 4). -/
def calculateSensitivity (freeCashFlow sharesOutstanding : ℚ)
    (baseDiscountRate baseFCFGrowth baseTerminalGrowth : ℚ)
    (projectionYears : ℕ) (netDebt : ℚ) : SensitivityResult :=
  { bear :=
      { discountRate := baseDiscountRate + 2
        growthRate := max (baseFCFGrowth - 2) 0
        intrinsicValue := calcIntrinsicValue freeCashFlow sharesOutstanding netDebt
          projectionYears (baseDiscountRate + 2) (max (baseFCFGrowth - 2) 0)
          (max (baseTerminalGrowth - 1) 2) }
    base :=
      { discountRate := baseDiscountRate
        growthRate := baseFCFGrowth
        intrinsicValue := calcIntrinsicValue freeCashFlow sharesOutstanding netDebt
          projectionYears baseDiscountRate baseFCFGrowth baseTerminalGrowth }
    bull :=
      { discountRate := max (baseDiscountRate - 2) 5
        growthRate := min (baseFCFGrowth + 2) 25
        intrinsicValue := calcIntrinsicValue freeCashFlow sharesOutstanding netDebt
          projectionYears (max (baseDiscountRate - 2) 5) (min (baseFCFGrowth + 2) 25)
          (min (baseTerminalGrowth + 1) 4) } }

/-- Source `calculateDCF(inputs)`: resolves assumptions, projects cash flows,
computes the Gordon terminal value, enterprise/equity value, intrinsic value
per share and the sensitivity scenarios.  Total: the source performs no
input validation and returns a plain `DCFOutputs` for every input. -/
def calculateDCF (inputs : DCFInputs) : DCFOutputs :=
  let projectionYears := resolveYears inputs.projectionYears
  let terminalGrowthRate := resolveTG inputs.terminalGrowthRate
  let discountRate := calculateWACC inputs.marketCap inputs.discountRate
  let fcfGrowthRate := estimateFCFGrowthRate inputs.revenueGrowth terminalGrowthRate
  let netDebt := inputs.totalDebt - inputs.cash
  let projectedCashFlows : List CashFlowYear :=
    (List.range projectionYears).map fun i =>
      let year := i + 1
      let fcf := inputs.freeCashFlow * (1 + fcfGrowthRate / 100) ^ year
      let discountFactor := (1 + discountRate / 100) ^ year
      { year := year, fcf := fcf, presentValue := fcf / discountFactor
        discountFactor := discountFactor }
  let finalYearFCF :=
    (projectedCashFlows.getD (projectionYears - 1)
      { year := 0, fcf := 0, presentValue := 0, discountFactor := 0 }).fcf
  let terminalValueNominal :=
    finalYearFCF * (1 + terminalGrowthRate / 100) /
      (discountRate / 100 - terminalGrowthRate / 100)
  let terminalDiscountFactor := (1 + discountRate / 100) ^ projectionYears
  let terminalValuePV := terminalValueNominal / terminalDiscountFactor
  let sumOfDiscountedCashFlows := (projectedCashFlows.map (·.presentValue)).sum
  let enterpriseValue := sumOfDiscountedCashFlows + terminalValuePV
  let equityValue := enterpriseValue - netDebt
  let intrinsicValue := equityValue / inputs.sharesOutstanding
  { intrinsicValue := intrinsicValue
    enterpriseValue := enterpriseValue
    equityValue := equityValue
    assumptions :=
      { discountRate := discountRate
        terminalGrowthRate := terminalGrowthRate
        projectionYears := projectionYears
        initialFCF := inputs.freeCashFlow
        fcfGrowthRate := fcfGrowthRate }
    projectedCashFlows := projectedCashFlows
    terminalValueNominal := terminalValueNominal
    terminalValuePV := terminalValuePV
    sensitivity := calculateSensitivity inputs.freeCashFlow inputs.sharesOutstanding
      discountRate fcfGrowthRate terminalGrowthRate projectionYears netDebt }

/-- The five recommendation labels of `assessValuation`. -/
inductive Recommendation where
  | strongBuy
  | buy
  | hold
  | sell
  | strongSell
deriving DecidableEq, Repr

/-- Source `assessValuation(intrinsicValue, currentPrice)`: percentage upside and
a five-way recommendation. -/
def assessValuation (intrinsicValue currentPrice : ℚ) : ℚ × Recommendation :=
  let upside := (intrinsicValue - currentPrice) / currentPrice * 100
  let recommendation : Recommendation :=
    if 30 ≤ upside then .strongBuy
    else if 15 ≤ upside then .buy
    else if -15 ≤ upside then .hold
    else if -30 ≤ upside then .sell
    else .strongSell
  (upside, recommendation)

/- ======================================================================
   RATE LIMITER (rate limiter file, `RateLimiter`)
   ====================================================================== -/

/-- Configuration record `RateLimiterConfig`. -/
structure RateLimiterConfig where
  minDelayMs : ℚ
  maxRetries : ℕ
  baseBackoffMs : ℚ
  batchSize : ℕ
  interBatchDelayMs : ℚ
deriving Repr

/-- Source `DEFAULT_CONFIG`. -/
def DEFAULT_CONFIG : RateLimiterConfig :=
  { minDelayMs := 500, maxRetries := 3, baseBackoffMs := 1000,
    batchSize := 10, interBatchDelayMs := 2000 }

/-- Source `getBackoffDelay(attempt) = baseBackoffMs * 2^attempt`. -/
def getBackoffDelay (cfg : RateLimiterConfig) (attempt : ℕ) : ℚ :=
  cfg.baseBackoffMs * 2 ^ attempt

/-- Model of `message.includes(pattern)` on an already-lowercased message: `splitOn`
produces more than one piece exactly when the pattern occurs. -/
def includesSubstr (message pattern : String) : Bool :=
  (message.splitOn pattern).length > 1

/-- Source `isRateLimitError`: the lowercased message contains one of the four
rate-limit keywords. -/
def isRateLimitError (message : String) : Bool :=
  includesSubstr message.toLower "rate limit" ||
  includesSubstr message.toLower "too many requests" ||
  includesSubstr message.toLower "429" ||
  includesSubstr message.toLower "throttl"

/-- The body of `execute`'s retry loop, from attempt number `attempt` on,
with `remaining` retries still allowed (the loop's guard `attempt <
maxRetries` is the same as `remaining ≠ 0` when `remaining = maxRetries -
attempt`, which every call site maintains).  The fetch is modelled as a
function from the attempt number to a result or an error message.  Returns
the final result, the list of backoff sleeps performed (in order), and the
number of fetch calls made.  Both the rate-limit branch and the
generic-failure branch of the source sleep the same
`getBackoffDelay(attempt)` before retrying; after the last attempt the last
error is rethrown. -/
def executeAux (cfg : RateLimiterConfig) (f : ℕ → Except String ρ)
    (attempt : ℕ) : (remaining : ℕ) → Except String ρ × List ℚ × ℕ
  | 0 =>
    match f attempt with
    | .ok r => (.ok r, [], 1)
    | .error e => (.error e, [], 1)
  | rem + 1 =>
    match f attempt with
    | .ok r => (.ok r, [], 1)
    | .error e =>
      let rest := executeAux cfg f (attempt + 1) rem
      if isRateLimitError e then
        (rest.1, getBackoffDelay cfg attempt :: rest.2.1, rest.2.2 + 1)
      else
        (rest.1, getBackoffDelay cfg attempt :: rest.2.1, rest.2.2 + 1)

/-- Source `execute(fn)`: run the retry loop from attempt 0, with `maxRetries`
retries allowed. -/
def execute (cfg : RateLimiterConfig) (f : ℕ → Except String ρ) :
    Except String ρ × List ℚ × ℕ :=
  executeAux cfg f 0 cfg.maxRetries

/-- The batch-splitting loop body of `executeBatch`:
`for (i = 0; i < items.length; i += batchSize) push(items.slice(i, i + batchSize))`,
written as fuel recursion so each step consumes at least one element; the
fuel (instantiated to the list length by `chunksOf`) never runs out, so the
middle catch-all case is unreachable.  Sound for `n ≥ 1` (with `n = 0` the
source loop would not terminate). -/
def chunksGo (n : ℕ) : ℕ → List α → List (List α)
  | _, [] => []
  | 0, l => [l]
  | fuel + 1, x :: xs => (x :: xs.take (n - 1)) :: chunksGo n fuel (xs.drop (n - 1))

/-- Split a list into batches of `n` (`batchSize`) elements, the last batch
possibly shorter. -/
def chunksOf (n : ℕ) (l : List α) : List (List α) :=
  chunksGo n l.length l

/-- Source `executeBatch(items, fn)` with the default options
(`continueOnError = true`): every item of every batch is processed by
`execute` and its result — ok or error — is recorded; a per-item error never
aborts the remaining items. -/
def executeBatch (cfg : RateLimiterConfig) (items : List τ)
    (f : τ → ℕ → Except String ρ) : List (τ × Except String ρ) :=
  ((chunksOf cfg.batchSize items).map fun batch =>
    batch.map fun item => (item, (execute cfg (f item)).1)).flatten

/-- Source `estimateTime(itemCount)`, total milliseconds before the
seconds/minutes rounding:
`itemCount * minDelayMs + (ceil(itemCount / batchSize) - 1) * interBatchDelayMs`. -/
def estimateTotalMs (cfg : RateLimiterConfig) (itemCount : ℕ) : ℚ :=
  let batches : ℕ := (itemCount + cfg.batchSize - 1) / cfg.batchSize
  (itemCount : ℚ) * cfg.minDelayMs + ((batches : ℚ) - 1) * cfg.interBatchDelayMs

/- Timing model of the scheduler, for the wall-clock claim: fetches succeed
instantly and take zero time, so the clock advances only through the
throttle waits and the inter-batch sleeps. -/

/-- The limiter's clock-relevant state: the current time and
`lastRequestTime`. -/
structure SchedClock where
  now : ℚ
  lastRequestTime : ℚ
deriving Repr

/-- Source `throttle()`: if less than `minDelayMs` elapsed since the last request,
sleep the difference; then stamp `lastRequestTime`. -/
def throttle (minDelayMs : ℚ) (s : SchedClock) : SchedClock :=
  let wait :=
    if s.now - s.lastRequestTime < minDelayMs then
      minDelayMs - (s.now - s.lastRequestTime)
    else 0
  { now := s.now + wait, lastRequestTime := s.now + wait }

/-- Process one batch of `k` instantly-succeeding items: each item costs one
`throttle` call (the fetch itself takes zero time, no retries). -/
def runChunk (minDelayMs : ℚ) (s : SchedClock) : ℕ → SchedClock
  | 0 => s
  | k + 1 => runChunk minDelayMs (throttle minDelayMs s) k

/-- Process the batches in order, sleeping `interBatchDelayMs` after every
batch except the last (`executeBatch`'s loop with instant fetches). -/
def runBatches (minDelayMs interBatchDelayMs : ℚ) (s : SchedClock) :
    List ℕ → SchedClock
  | [] => s
  | [k] => runChunk minDelayMs s k
  | k :: k' :: rest =>
    let s' := runChunk minDelayMs s k
    runBatches minDelayMs interBatchDelayMs
      { s' with now := s'.now + interBatchDelayMs } (k' :: rest)

/-- Total enforced delay of an `executeBatch` run over `n` instantly
succeeding fetches started at time `t0` on a fresh limiter
(`lastRequestTime = 0`): the end-of-run clock minus the start time. -/
def totalEnforcedDelay (cfg : RateLimiterConfig) (n : ℕ) (t0 : ℚ) : ℚ :=
  (runBatches cfg.minDelayMs cfg.interBatchDelayMs
    { now := t0, lastRequestTime := 0 }
    ((chunksOf cfg.batchSize (List.range n)).map List.length)).now - t0

/- ======================================================================
   DATABASE SCHEMA (`SCHEMA_SQL`)
   ====================================================================== -/

/-- SQL column types used in `SCHEMA_SQL`. -/
inductive ColType where
  | text
  | real
  | integer
deriving DecidableEq, Repr

/-- SQL column defaults used in `SCHEMA_SQL`. -/
inductive ColDefault where
  | str (s : String)
  | num (q : ℚ)
  | datetimeNow
deriving DecidableEq, Repr

/-- One column declaration. -/
structure Column where
  name : String
  ty : ColType
  notNull : Bool
  primaryKey : Bool := false
  autoIncrementKey : Bool := false
  deflt : Option ColDefault := none
deriving DecidableEq, Repr

/-- One table of `SCHEMA_SQL`: columns, UNIQUE constraints, CHECK
(column ∈ values) constraints and FOREIGN KEY (column, table, column)
references. -/
structure SqlTable where
  name : String
  columns : List Column
  uniques : List (List String) := []
  checks : List (String × List String) := []
  foreignKeys : List (String × String × String) := []
deriving DecidableEq, Repr

/-- Table `portfolios` of `SCHEMA_SQL`. -/
def portfoliosTable : SqlTable :=
  { name := "portfolios"
    columns :=
      [ { name := "id", ty := .text, notNull := true, primaryKey := true }
      , { name := "name", ty := .text, notNull := true }
      , { name := "strategy", ty := .text, notNull := true, deflt := some (.str "value") }
      , { name := "initial_capital", ty := .real, notNull := true }
      , { name := "current_cash", ty := .real, notNull := true }
      , { name := "target_holdings", ty := .integer, notNull := true, deflt := some (.num 20) }
      , { name := "max_position_pct", ty := .real, notNull := true, deflt := some (.num 0.10) }
      , { name := "min_position_pct", ty := .real, notNull := true, deflt := some (.num 0.02) }
      , { name := "max_sector_pct", ty := .real, notNull := true, deflt := some (.num 0.25) }
      , { name := "max_monthly_turnover", ty := .integer, notNull := true, deflt := some (.num 10) }
      , { name := "created_at", ty := .text, notNull := true, deflt := some .datetimeNow }
      , { name := "updated_at", ty := .text, notNull := true, deflt := some .datetimeNow } ] }

/-- Table `holdings` of `SCHEMA_SQL`. -/
def holdingsTable : SqlTable :=
  { name := "holdings"
    columns :=
      [ { name := "id", ty := .integer, notNull := false, primaryKey := true, autoIncrementKey := true }
      , { name := "portfolio_id", ty := .text, notNull := true }
      , { name := "ticker", ty := .text, notNull := true }
      , { name := "shares", ty := .real, notNull := true }
      , { name := "avg_cost", ty := .real, notNull := true }
      , { name := "current_price", ty := .real, notNull := false }
      , { name := "sector", ty := .text, notNull := false }
      , { name := "acquired_at", ty := .text, notNull := true, deflt := some .datetimeNow }
      , { name := "updated_at", ty := .text, notNull := true, deflt := some .datetimeNow } ]
    uniques := [["portfolio_id", "ticker"]]
    foreignKeys := [("portfolio_id", "portfolios", "id")] }

/-- Table `transactions` of `SCHEMA_SQL`. -/
def transactionsTable : SqlTable :=
  { name := "transactions"
    columns :=
      [ { name := "id", ty := .integer, notNull := false, primaryKey := true, autoIncrementKey := true }
      , { name := "portfolio_id", ty := .text, notNull := true }
      , { name := "ticker", ty := .text, notNull := true }
      , { name := "action", ty := .text, notNull := true }
      , { name := "shares", ty := .real, notNull := true }
      , { name := "price", ty := .real, notNull := true }
      , { name := "total_value", ty := .real, notNull := true }
      , { name := "reason", ty := .text, notNull := false }
      , { name := "score_at_trade", ty := .real, notNull := false }
      , { name := "executed_at", ty := .text, notNull := true, deflt := some .datetimeNow } ]
    checks := [("action", ["BUY", "SELL"])]
    foreignKeys := [("portfolio_id", "portfolios", "id")] }

/-- Table `snapshots` of `SCHEMA_SQL`. -/
def snapshotsTable : SqlTable :=
  { name := "snapshots"
    columns :=
      [ { name := "id", ty := .integer, notNull := false, primaryKey := true, autoIncrementKey := true }
      , { name := "portfolio_id", ty := .text, notNull := true }
      , { name := "snapshot_date", ty := .text, notNull := true }
      , { name := "total_value", ty := .real, notNull := true }
      , { name := "cash_value", ty := .real, notNull := true }
      , { name := "holdings_value", ty := .real, notNull := true }
      , { name := "holdings_count", ty := .integer, notNull := true }
      , { name := "period_return_pct", ty := .real, notNull := false }
      , { name := "cumulative_return_pct", ty := .real, notNull := false }
      , { name := "spy_period_return_pct", ty := .real, notNull := false }
      , { name := "spy_cumulative_return_pct", ty := .real, notNull := false }
      , { name := "alpha_pct", ty := .real, notNull := false }
      , { name := "holdings_data", ty := .text, notNull := true }
      , { name := "created_at", ty := .text, notNull := true, deflt := some .datetimeNow } ]
    foreignKeys := [("portfolio_id", "portfolios", "id")] }

/-- Table `stock_scores` of `SCHEMA_SQL`. -/
def stockScoresTable : SqlTable :=
  { name := "stock_scores"
    columns :=
      [ { name := "id", ty := .integer, notNull := false, primaryKey := true, autoIncrementKey := true }
      , { name := "ticker", ty := .text, notNull := true }
      , { name := "score_date", ty := .text, notNull := true }
      , { name := "total_score", ty := .real, notNull := true }
      , { name := "value_score", ty := .real, notNull := false }
      , { name := "quality_score", ty := .real, notNull := false }
      , { name := "growth_score", ty := .real, notNull := false }
      , { name := "momentum_score", ty := .real, notNull := false }
      , { name := "risk_score", ty := .real, notNull := false }
      , { name := "pe_ratio", ty := .real, notNull := false }
      , { name := "pb_ratio", ty := .real, notNull := false }
      , { name := "dividend_yield", ty := .real, notNull := false }
      , { name := "revenue_growth", ty := .real, notNull := false }
      , { name := "profit_margin", ty := .real, notNull := false }
      , { name := "beta", ty := .real, notNull := false }
      , { name := "market_cap", ty := .real, notNull := false }
      , { name := "sector", ty := .text, notNull := false }
      , { name := "raw_data", ty := .text, notNull := false }
      , { name := "created_at", ty := .text, notNull := true, deflt := some .datetimeNow } ] }

/-- All CREATE TABLE statements of `SCHEMA_SQL`, in order (the remaining
statements of the script are CREATE INDEX, which create no tables). -/
def schemaTables : List SqlTable :=
  [portfoliosTable, holdingsTable, transactionsTable, snapshotsTable, stockScoresTable]

/- ======================================================================
   CONCRETE INPUTS USED BY WITNESSES AND COUNTEREXAMPLES
   ====================================================================== -/

/-- C1 counterexample: with `discountRate = 2 ≤ 3 = terminalGrowthRate`,
`calculateDCF` returns a result (no failure) whose nominal terminal value
is negative — nothing is flagged invalid. -/
def exC1 : DCFInputs :=
  { freeCashFlow := 1000, totalDebt := 0, cash := 0, sharesOutstanding := 1,
    marketCap := 10 ^ 9, discountRate := some 2, terminalGrowthRate := some 3 }

/-- Input for the C2 counterexample: overridden discount rate 4.5% and
terminal growth 4.4% (so WACC > terminal growth and FCF > 0 hold as the
claim requires), negative revenue growth (so the base FCF growth falls back
to 4.4%). -/
def exC2 : DCFInputs :=
  { freeCashFlow := 1000, totalDebt := 0, cash := 0, sharesOutstanding := 1,
    marketCap := 10 ^ 9, revenueGrowth := some (-5),
    discountRate := some (9 / 2), terminalGrowthRate := some (22 / 5) }

/-- Input for the C2 witness: default assumptions (mega-cap WACC 9%,
terminal growth 3%, revenue growth 8% → FCF growth 6.5%). -/
def exC2w : DCFInputs :=
  { freeCashFlow := 1000, totalDebt := 0, cash := 0, sharesOutstanding := 1,
    marketCap := 250 * 10 ^ 9, revenueGrowth := some 8 }

/-- The reference input of C8: FCF \$10B, debt \$20B, cash \$30B, 5B shares,
revenue growth 8%, market cap \$250B, no overrides. -/
def exC8 : DCFInputs :=
  { freeCashFlow := 10 * 10 ^ 9, totalDebt := 20 * 10 ^ 9, cash := 30 * 10 ^ 9,
    sharesOutstanding := 5 * 10 ^ 9, marketCap := 250 * 10 ^ 9,
    revenueGrowth := some 8 }

/- ======================================================================
   HELPER LEMMAS
   ====================================================================== -/

/-- Success pattern of a fetch: `true` on `ok`, `false` on `error`. -/
def exceptOk : Except ε α → Bool
  | .ok _ => true
  | .error _ => false

/-- The backoff sleeps of a run that fails `k` consecutive times starting
at attempt number `start`. -/
def backoffList (cfg : RateLimiterConfig) (start k : ℕ) : List ℚ :=
  (List.range k).map fun i => getBackoffDelay cfg (start + i)

lemma backoffList_zero (cfg : RateLimiterConfig) (start : ℕ) :
    backoffList cfg start 0 = [] := rfl

lemma backoffList_succ (cfg : RateLimiterConfig) (start k : ℕ) :
    backoffList cfg start (k + 1) =
      getBackoffDelay cfg start :: backoffList cfg (start + 1) k := by
  unfold backoffList
  rw [List.range_succ_eq_map, List.map_cons, List.map_map]
  refine congrArg₂ _ (by rw [Nat.add_zero]) (List.map_congr_left fun i _ => ?_)
  simp only [Function.comp_apply]
  congr 1
  omega

lemma backoffList_length (cfg : RateLimiterConfig) (start k : ℕ) :
    (backoffList cfg start k).length = k := by
  simp [backoffList]

lemma executeAux_calls_le (cfg : RateLimiterConfig) (f : ℕ → Except String ρ) :
    ∀ (rem a : ℕ), (executeAux cfg f a rem).2.2 ≤ rem + 1 := by
  intro rem
  induction rem with
  | zero =>
    intro a
    rw [executeAux]
    cases f a <;> simp
  | succ rem ih =>
    intro a
    rw [executeAux]
    cases hf : f a with
    | ok r => simp
    | error e =>
      simp only [ite_self]
      exact Nat.succ_le_succ (ih (a + 1))

lemma executeAux_sleeps (cfg : RateLimiterConfig) (f : ℕ → Except String ρ) :
    ∀ (rem a : ℕ), ∃ k ≤ rem, (executeAux cfg f a rem).2.1 = backoffList cfg a k := by
  intro rem
  induction rem with
  | zero =>
    intro a
    refine ⟨0, le_refl 0, ?_⟩
    rw [executeAux]
    cases f a <;> simp [backoffList_zero]
  | succ rem ih =>
    intro a
    rw [executeAux]
    cases hf : f a with
    | ok r => exact ⟨0, Nat.zero_le _, rfl⟩
    | error e =>
      obtain ⟨k, hk, hsl⟩ := ih (a + 1)
      refine ⟨k + 1, Nat.succ_le_succ hk, ?_⟩
      simp only [ite_self]
      rw [backoffList_succ, hsl]

lemma executeAux_sleeps_congr (cfg : RateLimiterConfig)
    (f g : ℕ → Except String ρ) (h : ∀ m, exceptOk (f m) = exceptOk (g m)) :
    ∀ (rem a : ℕ), (executeAux cfg f a rem).2.1 = (executeAux cfg g a rem).2.1 := by
  intro rem
  induction rem with
  | zero =>
    intro a
    have hm := h a
    rw [executeAux, executeAux]
    cases hf : f a <;> cases hg : g a <;>
      simp [hf, hg, exceptOk] at hm ⊢
  | succ rem ih =>
    intro a
    have hm := h a
    rw [executeAux, executeAux]
    cases hf : f a with
    | ok r =>
      cases hg : g a with
      | ok s => rfl
      | error e => rw [hf, hg] at hm; simp [exceptOk] at hm
    | error e =>
      cases hg : g a with
      | ok s => rw [hf, hg] at hm; simp [exceptOk] at hm
      | error e2 =>
        simp only [ite_self]
        rw [ih (a + 1)]

lemma executeAux_all_fail (cfg : RateLimiterConfig) (f : ℕ → Except String ρ) :
    ∀ (rem a : ℕ), (∀ m, a ≤ m → m ≤ a + rem → exceptOk (f m) = false) →
      (executeAux cfg f a rem).1 = f (a + rem) := by
  intro rem
  induction rem with
  | zero =>
    intro a hfail
    have ha := hfail a (le_refl a) (Nat.le_add_right a 0)
    rw [executeAux]
    cases hf : f a with
    | ok r => rw [hf] at ha; simp [exceptOk] at ha
    | error e => rw [Nat.add_zero, hf]
  | succ rem ih =>
    intro a hfail
    have ha := hfail a (le_refl a) (Nat.le_add_right a _)
    rw [executeAux]
    cases hf : f a with
    | ok r => rw [hf] at ha; simp [exceptOk] at ha
    | error e =>
      simp only [ite_self]
      have := ih (a + 1) (fun m h1 h2 => hfail m (by omega) (by omega))
      rw [this]
      congr 1
      omega

lemma chunksGo_flatten (n : ℕ) :
    ∀ (fuel : ℕ) (l : List α), l.length ≤ fuel → (chunksGo n fuel l).flatten = l := by
  intro fuel
  induction fuel with
  | zero =>
    intro l hl
    have : l = [] := List.eq_nil_of_length_eq_zero (Nat.le_zero.mp hl)
    subst this
    rfl
  | succ fuel ih =>
    intro l hl
    cases l with
    | nil => rfl
    | cons x xs =>
      simp only [chunksGo, List.flatten_cons]
      rw [ih (xs.drop (n - 1)) (by simp at hl ⊢; omega)]
      simp [List.take_append_drop]

lemma chunksOf_flatten (n : ℕ) (l : List α) : (chunksOf n l).flatten = l :=
  chunksGo_flatten n l.length l (le_refl _)

lemma executeBatch_eq_map (cfg : RateLimiterConfig) (items : List τ)
    (f : τ → ℕ → Except String ρ) :
    executeBatch cfg items f = items.map fun t => (t, (execute cfg (f t)).1) := by
  unfold executeBatch
  rw [← List.map_flatten, chunksOf_flatten]

/- ======================================================================
   CLAIMS C3 AND C4
   ====================================================================== -/

/-- C3: for every input list of tickers (and every fetch function),
`executeBatch` returns an entry for every input ticker, each entry being
the `execute` outcome for that ticker — the fetched value or the terminal
error — and a per-ticker failure never aborts the batch: every ticker of
the list gets its entry regardless of the other entries being errors. -/
theorem executeBatch_complete (cfg : RateLimiterConfig) (items : List τ)
    (f : τ → ℕ → Except String ρ) (hbatch : 0 < cfg.batchSize) :
    (executeBatch cfg items f).map Prod.fst = items ∧
    ∀ t ∈ items, (t, (execute cfg (f t)).1) ∈ executeBatch cfg items f := by
  constructor
  · rw [executeBatch_eq_map, List.map_map]
    rw [show (Prod.fst ∘ fun t : τ => (t, (execute cfg (f t)).1)) = id from rfl,
      List.map_id]
  · intro t ht
    rw [executeBatch_eq_map]
    exact List.mem_map_of_mem _ ht

/-- Witness for C3 at a concrete batch in which one ticker always fails. -/
theorem executeBatch_complete_witness :
    (executeBatch DEFAULT_CONFIG ["AAPL", "MSFT"]
      (fun t _ => if t = "AAPL" then Except.ok 1 else Except.error "boom")).map
        Prod.fst = ["AAPL", "MSFT"] :=
  (executeBatch_complete DEFAULT_CONFIG ["AAPL", "MSFT"]
    (fun t _ => if t = "AAPL" then Except.ok 1 else Except.error "boom")
    (by norm_num [DEFAULT_CONFIG])).1

/-- C4: `execute` makes at most `maxRetries + 1` fetch calls (at most
`maxRetries` retries, hence at most `maxRetries` backoff sleeps); the sleep
before the retry that follows the attempt numbered `j` is
`baseBackoffMs * 2 ^ j`; the backoff schedule depends only on which
attempts fail, not on the error (in particular not on whether
`isRateLimitError` classifies it as a rate-limit signal); and when every
attempt up to `maxRetries` fails, the surfaced result is the last attempt's
error. -/
theorem execute_retry_policy (cfg : RateLimiterConfig)
    (f g : ℕ → Except String ρ) :
    (execute cfg f).2.2 ≤ cfg.maxRetries + 1 ∧
    (execute cfg f).2.1.length ≤ cfg.maxRetries ∧
    (∀ j : ℕ, j < (execute cfg f).2.1.length →
      (execute cfg f).2.1.getD j 0 = cfg.baseBackoffMs * 2 ^ j) ∧
    ((∀ n, exceptOk (f n) = exceptOk (g n)) →
      (execute cfg f).2.1 = (execute cfg g).2.1) ∧
    ((∀ n, n ≤ cfg.maxRetries → exceptOk (f n) = false) →
      (execute cfg f).1 = f cfg.maxRetries) := by
  obtain ⟨k, hk, hsl⟩ := executeAux_sleeps cfg f cfg.maxRetries 0
  refine ⟨executeAux_calls_le cfg f cfg.maxRetries 0, ?_, ?_, ?_, ?_⟩
  · rw [execute, hsl, backoffList_length]
    exact hk
  · intro j hj
    rw [execute, hsl] at hj ⊢
    rw [backoffList_length] at hj
    unfold backoffList
    rw [List.getD_eq_getElem?_getD, List.getElem?_map, List.getElem?_range hj]
    simp [getBackoffDelay]
  · intro hsame
    exact executeAux_sleeps_congr cfg f g hsame cfg.maxRetries 0
  · intro hfail
    have := executeAux_all_fail cfg f cfg.maxRetries 0
      (fun m h1 h2 => hfail m (by omega))
    rw [execute, this, Nat.zero_add]

/-- Witness for C4 at a concrete always-failing fetch: the surfaced result
is the last error. -/
theorem execute_retry_policy_witness :
    (execute DEFAULT_CONFIG
      (fun _ => (Except.error "boom" : Except String ℕ))).1 =
      Except.error "boom" :=
  (execute_retry_policy DEFAULT_CONFIG
    (fun _ => (Except.error "boom" : Except String ℕ))
    (fun _ => (Except.error "boom" : Except String ℕ))).2.2.2.2 (fun _ _ => rfl)

/- ======================================================================
   CLAIM C5 (wall-clock bound of a 23-ticker batch run)
   ====================================================================== -/

lemma throttle_of_gap_ge (d : ℚ) (s : SchedClock)
    (h : d ≤ s.now - s.lastRequestTime) :
    throttle d s = { now := s.now, lastRequestTime := s.now } := by
  unfold throttle
  rw [if_neg (not_lt.mpr h)]
  simp

lemma runChunk_steady (d : ℚ) (hd : 0 < d) :
    ∀ (k : ℕ) (t : ℚ),
      runChunk d { now := t, lastRequestTime := t } k =
        { now := t + d * k, lastRequestTime := t + d * k } := by
  intro k
  induction k with
  | zero => intro t; simp [runChunk]
  | succ k ih =>
    intro t
    have hth : throttle d { now := t, lastRequestTime := t } =
        { now := t + d, lastRequestTime := t + d } := by
      unfold throttle
      rw [if_pos (by simpa using hd)]
      simp
    rw [runChunk, hth, ih (t + d)]
    have h' : t + d + d * k = t + d * (k + 1) := by ring
    rw [h']
    norm_num

lemma runChunk_of_gap_ge (d : ℚ) (hd : 0 < d) (s : SchedClock)
    (h : d ≤ s.now - s.lastRequestTime) (k : ℕ) (hk : 1 ≤ k) :
    runChunk d s k =
      { now := s.now + d * (k - 1 : ℕ), lastRequestTime := s.now + d * (k - 1 : ℕ) } := by
  obtain ⟨m, rfl⟩ : ∃ m, k = m + 1 := ⟨k - 1, by omega⟩
  rw [runChunk, throttle_of_gap_ge d s h, runChunk_steady d hd m s.now]
  congr 2

/-- For every start time at least `minDelayMs` past the fresh limiter's
`lastRequestTime = 0`, the total enforced delay of a 23-ticker run with the
default configuration is exactly `20 * 500 + 2 * 2000 = 14000` ms: the first
request of each batch incurs no throttle wait (the inter-batch sleep of
2000 ms already exceeds the 500 ms minimum delay), so only 20 of the 23
requests wait. -/
lemma totalEnforcedDelay_default_23 (t0 : ℚ) (h : 500 ≤ t0) :
    totalEnforcedDelay DEFAULT_CONFIG 23 t0 = 14000 := by
  have hsizes : (chunksOf DEFAULT_CONFIG.batchSize (List.range 23)).map List.length =
      [10, 10, 3] := by decide
  unfold totalEnforcedDelay
  rw [hsizes]
  have hd : (0 : ℚ) < DEFAULT_CONFIG.minDelayMs := by norm_num [DEFAULT_CONFIG]
  rw [runBatches]
  rw [runChunk_of_gap_ge _ hd _ (by simp [DEFAULT_CONFIG]; linarith) 10 (by norm_num)]
  rw [runBatches]
  rw [runChunk_of_gap_ge _ hd _ (by simp [DEFAULT_CONFIG]; norm_num) 10 (by norm_num)]
  rw [runBatches]
  rw [runChunk_of_gap_ge _ hd _ (by simp [DEFAULT_CONFIG]; norm_num) 3 (by norm_num)]
  simp [DEFAULT_CONFIG]
  ring

/-- C5 (amended): in the claimed scenario (N = 23, batchSize = 10,
minDelayMs = 500, interBatchDelayMs = 2000, all fetches instant, no
retries) the total enforced delay is exactly `(23 - 3) * 500 + 2 * 2000 =
14000` ms for every start time at least `minDelayMs` on a fresh limiter:
each batch's first request incurs no throttle wait, so the claimed
`23 * 500 + 2 * 2000 = 15500` ms lower bound does not hold, but the
`14000` ms bound does. -/
theorem totalEnforcedDelay_default_23_eq (t0 : ℚ) (h : 500 ≤ t0) :
    totalEnforcedDelay DEFAULT_CONFIG 23 t0 = (23 - 3) * 500 + 2 * 2000 := by
  rw [totalEnforcedDelay_default_23 t0 h]
  norm_num

/-- Witness for the amended C5 at the concrete start time `t0 = 500`. -/
theorem totalEnforcedDelay_default_23_eq_witness :
    totalEnforcedDelay DEFAULT_CONFIG 23 500 = (23 - 3) * 500 + 2 * 2000 :=
  totalEnforcedDelay_default_23_eq 500 (le_refl 500)

/-- C5 counterexample: at the concrete start time `t0 = 1000` the total
enforced delay of the 23-ticker default run is 14000 ms, which is NOT at
least `23 * 500 + 2 * 2000 = 15500` ms; the 15500 figure is only what
`estimateTime` predicts. -/
theorem totalEnforcedDelay_default_23_counterexample :
    ¬ (23 * 500 + 2 * 2000 ≤ totalEnforcedDelay DEFAULT_CONFIG 23 1000) ∧
    estimateTotalMs DEFAULT_CONFIG 23 = 23 * 500 + 2 * 2000 := by
  constructor
  · rw [totalEnforcedDelay_default_23 1000 (by norm_num)]
    norm_num
  · norm_num [estimateTotalMs, DEFAULT_CONFIG]

/- ======================================================================
   DCF HELPER LEMMAS
   ====================================================================== -/

lemma getD_range_map (f : ℕ → CashFlowYear) (H i : ℕ) (d : CashFlowYear)
    (h : i < H) : ((List.range H).map f).getD i d = f i := by
  rw [List.getD_eq_getElem?_getD, List.getElem?_map, List.getElem?_range h]
  rfl

lemma resolveYears_pos (o : Option ℕ) : 0 < resolveYears o := by
  cases o with
  | none => norm_num [resolveYears]
  | some n => simp only [resolveYears]; split <;> omega

lemma sum_range_eq_list_sum (n : ℕ) (f : ℕ → ℚ) :
    ∑ i in Finset.range n, f i = ((List.range n).map f).sum := rfl

/-- The `sensitivity` field of `calculateDCF` is `calculateSensitivity`
applied to the resolved base assumptions. -/
lemma calculateDCF_sensitivity (inputs : DCFInputs) :
    (calculateDCF inputs).sensitivity =
      calculateSensitivity inputs.freeCashFlow inputs.sharesOutstanding
        (calculateWACC inputs.marketCap inputs.discountRate)
        (estimateFCFGrowthRate inputs.revenueGrowth (resolveTG inputs.terminalGrowthRate))
        (resolveTG inputs.terminalGrowthRate)
        (resolveYears inputs.projectionYears)
        (inputs.totalDebt - inputs.cash) := rfl

/-- The `assumptions` field of `calculateDCF` records the resolved inputs. -/
lemma calculateDCF_assumptions (inputs : DCFInputs) :
    (calculateDCF inputs).assumptions =
      { discountRate := calculateWACC inputs.marketCap inputs.discountRate
        terminalGrowthRate := resolveTG inputs.terminalGrowthRate
        projectionYears := resolveYears inputs.projectionYears
        initialFCF := inputs.freeCashFlow
        fcfGrowthRate := estimateFCFGrowthRate inputs.revenueGrowth
          (resolveTG inputs.terminalGrowthRate) } := rfl

/-- Closed form of the nominal terminal value of `calculateDCF`. -/
lemma calculateDCF_terminalValueNominal (inputs : DCFInputs) :
    (calculateDCF inputs).terminalValueNominal =
      inputs.freeCashFlow *
          (1 + estimateFCFGrowthRate inputs.revenueGrowth
            (resolveTG inputs.terminalGrowthRate) / 100) ^
            resolveYears inputs.projectionYears *
          (1 + resolveTG inputs.terminalGrowthRate / 100) /
        (calculateWACC inputs.marketCap inputs.discountRate / 100 -
          resolveTG inputs.terminalGrowthRate / 100) := by
  have hH : 0 < resolveYears inputs.projectionYears := resolveYears_pos _
  simp only [calculateDCF]
  rw [getD_range_map _ _ _ _ (by omega)]
  rw [Nat.sub_add_cancel hH]

/-- The intrinsic value of `calculateDCF` equals the sensitivity helper's
formula evaluated at the resolved base assumptions (the two code paths
compute the same formula). -/
lemma calculateDCF_intrinsicValue (inputs : DCFInputs) :
    (calculateDCF inputs).intrinsicValue =
      calcIntrinsicValue inputs.freeCashFlow inputs.sharesOutstanding
        (inputs.totalDebt - inputs.cash) (resolveYears inputs.projectionYears)
        (calculateWACC inputs.marketCap inputs.discountRate)
        (estimateFCFGrowthRate inputs.revenueGrowth (resolveTG inputs.terminalGrowthRate))
        (resolveTG inputs.terminalGrowthRate) := by
  have hH : 0 < resolveYears inputs.projectionYears := resolveYears_pos _
  simp only [calculateDCF, calcIntrinsicValue]
  rw [getD_range_map _ _ _ _ (by omega)]
  rw [Nat.sub_add_cancel hH]
  rw [List.map_map, sum_range_eq_list_sum]
  rfl

/-- Monotonicity of `calcIntrinsicValue` in the FCF growth rate. -/
lemma calcIntrinsicValue_mono_growth (fcf sh nd : ℚ) (H : ℕ) (dr tg g1 g2 : ℚ)
    (hfcf : 0 ≤ fcf) (hsh : 0 < sh) (hg1 : 0 ≤ 1 + g1 / 100) (hg : g1 ≤ g2)
    (hdr : 0 < 1 + dr / 100) (htg : 0 ≤ 1 + tg / 100)
    (hden : 0 < dr / 100 - tg / 100) :
    calcIntrinsicValue fcf sh nd H dr g1 tg ≤ calcIntrinsicValue fcf sh nd H dr g2 tg := by
  have hgq : 1 + g1 / 100 ≤ 1 + g2 / 100 := by linarith
  simp only [calcIntrinsicValue]
  gcongr

/-- Monotonicity of `calcIntrinsicValue` in the terminal growth rate (as long
as the Gordon denominator stays positive). -/
lemma calcIntrinsicValue_mono_terminal (fcf sh nd : ℚ) (H : ℕ) (dr g tg1 tg2 : ℚ)
    (hfcf : 0 ≤ fcf) (hsh : 0 < sh) (hg : 0 ≤ 1 + g / 100)
    (hdr : 0 < 1 + dr / 100) (htg1 : 0 ≤ 1 + tg1 / 100) (htg : tg1 ≤ tg2)
    (hden2 : 0 < dr / 100 - tg2 / 100) :
    calcIntrinsicValue fcf sh nd H dr g tg1 ≤ calcIntrinsicValue fcf sh nd H dr g tg2 := by
  have hN : 0 ≤ fcf * (1 + g / 100) ^ H := mul_nonneg hfcf (pow_nonneg hg H)
  have htg2 : 0 ≤ 1 + tg2 / 100 := by linarith
  have hd12 : dr / 100 - tg2 / 100 ≤ dr / 100 - tg1 / 100 := by linarith
  simp only [calcIntrinsicValue]
  gcongr

/-- Antitonicity of `calcIntrinsicValue` in the discount rate (as long as the
Gordon denominator stays positive at the smaller rate). -/
lemma calcIntrinsicValue_anti_discount (fcf sh nd : ℚ) (H : ℕ) (g tg dr1 dr2 : ℚ)
    (hfcf : 0 ≤ fcf) (hsh : 0 < sh) (hg : 0 ≤ 1 + g / 100)
    (hdr1 : 0 < 1 + dr1 / 100) (hdr : dr1 ≤ dr2) (htg : 0 ≤ 1 + tg / 100)
    (hden1 : 0 < dr1 / 100 - tg / 100) :
    calcIntrinsicValue fcf sh nd H dr2 g tg ≤ calcIntrinsicValue fcf sh nd H dr1 g tg := by
  have hN : 0 ≤ fcf * (1 + g / 100) ^ H := mul_nonneg hfcf (pow_nonneg hg H)
  have hdr2 : 0 < 1 + dr2 / 100 := by linarith
  have hdq : 1 + dr1 / 100 ≤ 1 + dr2 / 100 := by linarith
  have hd12 : dr1 / 100 - tg / 100 ≤ dr2 / 100 - tg / 100 := by linarith
  simp only [calcIntrinsicValue]
  gcongr

/- ======================================================================
   CLAIMS C1 AND C2
   ====================================================================== -/

/-- C1 (amended): `calculateDCF` performs no input validation and cannot
fail: `freeCashFlow` and `sharesOutstanding` are required numeric fields of
`DCFInputs` (absence is not representable at the call), and when the
resolved discount rate is below the resolved terminal growth rate — with a
positive FCF and growth rates above −100% — the function still returns an
ordinary result whose nominal terminal value is silently negative; no
scenario carries any invalid flag (a `Scenario` has only
discount-rate/growth-rate/value fields). -/
theorem calculateDCF_no_validation (inputs : DCFInputs)
    (hf : 0 < inputs.freeCashFlow)
    (hg : -100 < estimateFCFGrowthRate inputs.revenueGrowth
      (resolveTG inputs.terminalGrowthRate))
    (htg : -100 < resolveTG inputs.terminalGrowthRate)
    (hlt : calculateWACC inputs.marketCap inputs.discountRate <
      resolveTG inputs.terminalGrowthRate) :
    (calculateDCF inputs).terminalValueNominal < 0 := by
  rw [calculateDCF_terminalValueNominal]
  apply div_neg_of_pos_of_neg
  · have h1 : (0 : ℚ) < 1 + estimateFCFGrowthRate inputs.revenueGrowth
        (resolveTG inputs.terminalGrowthRate) / 100 := by linarith
    have h2 : (0 : ℚ) < 1 + resolveTG inputs.terminalGrowthRate / 100 := by linarith
    exact mul_pos (mul_pos hf (pow_pos h1 _)) h2
  · linarith


/-- C1 counterexample theorem: the claimed failure/invalid-flagging does not
happen at `exC1`: the discount rate (2) is ≤ the terminal growth rate (3),
yet `calculateDCF` produces a plain output with a negative nominal terminal
value. -/
theorem calculateDCF_no_validation_counterexample :
    calculateWACC exC1.marketCap exC1.discountRate ≤
      resolveTG exC1.terminalGrowthRate ∧
    (calculateDCF exC1).terminalValueNominal < 0 := by
  constructor
  · norm_num [exC1, calculateWACC, resolveTG]
  · rw [calculateDCF_terminalValueNominal]
    norm_num [exC1, calculateWACC, resolveTG, resolveYears, estimateFCFGrowthRate]

/-- Witness for the amended C1 at `exC1`. -/
theorem calculateDCF_no_validation_witness :
    (calculateDCF exC1).terminalValueNominal < 0 :=
  calculateDCF_no_validation exC1
    (by norm_num [exC1])
    (by norm_num [exC1, estimateFCFGrowthRate, resolveTG])
    (by norm_num [exC1, resolveTG])
    (by norm_num [exC1, calculateWACC, resolveTG])

/-- C2 (amended): bull ≥ base ≥ bear holds for every DCF input with
positive FCF and shares whose *resolved* base assumptions additionally
satisfy: discount rate ≥ 5, terminal growth in [2, 4], FCF growth in
[0, 25], and discount rate > terminal growth.  (Every run that uses the
market-cap default WACC and the default 3% terminal growth satisfies
these.)  Without them the orderings fail — see the counterexample. -/
theorem calculateDCF_sensitivity_ordering (inputs : DCFInputs)
    (hf : 0 < inputs.freeCashFlow) (hs : 0 < inputs.sharesOutstanding)
    (hdr5 : 5 ≤ calculateWACC inputs.marketCap inputs.discountRate)
    (htg2 : 2 ≤ resolveTG inputs.terminalGrowthRate)
    (htg4 : resolveTG inputs.terminalGrowthRate ≤ 4)
    (hlt : resolveTG inputs.terminalGrowthRate <
      calculateWACC inputs.marketCap inputs.discountRate)
    (hg0 : 0 ≤ estimateFCFGrowthRate inputs.revenueGrowth
      (resolveTG inputs.terminalGrowthRate))
    (hg25 : estimateFCFGrowthRate inputs.revenueGrowth
      (resolveTG inputs.terminalGrowthRate) ≤ 25) :
    (calculateDCF inputs).sensitivity.bear.intrinsicValue ≤
      (calculateDCF inputs).sensitivity.base.intrinsicValue ∧
    (calculateDCF inputs).sensitivity.base.intrinsicValue ≤
      (calculateDCF inputs).sensitivity.bull.intrinsicValue := by
  rw [calculateDCF_sensitivity]
  set fcf := inputs.freeCashFlow with hfcf_def
  set sh := inputs.sharesOutstanding with hsh_def
  set nd := inputs.totalDebt - inputs.cash with hnd_def
  set H := resolveYears inputs.projectionYears with hH_def
  set dr := calculateWACC inputs.marketCap inputs.discountRate with hdr_def
  set tg := resolveTG inputs.terminalGrowthRate with htg_def
  set g := estimateFCFGrowthRate inputs.revenueGrowth
    (resolveTG inputs.terminalGrowthRate) with hg_def
  simp only [calculateSensitivity]
  have hfcf : 0 ≤ fcf := le_of_lt hf
  have hbg_le : max (g - 2) 0 ≤ g := max_le (by linarith) hg0
  have hbg_0 : (0 : ℚ) ≤ max (g - 2) 0 := le_max_right _ _
  have hbt_le : max (tg - 1) 2 ≤ tg := max_le (by linarith) htg2
  have hbt_2 : (2 : ℚ) ≤ max (tg - 1) 2 := le_max_right _ _
  have hud_le : max (dr - 2) 5 ≤ dr := max_le (by linarith) hdr5
  have hud_5 : (5 : ℚ) ≤ max (dr - 2) 5 := le_max_right _ _
  have hug_ge : g ≤ min (g + 2) 25 := le_min (by linarith) hg25
  have hug_25 : min (g + 2) 25 ≤ 25 := min_le_right _ _
  have hug_0 : (0 : ℚ) ≤ min (g + 2) 25 := le_min (by linarith) (by norm_num)
  have hut_ge : tg ≤ min (tg + 1) 4 := le_min (by linarith) htg4
  have hut_4 : min (tg + 1) 4 ≤ 4 := min_le_right _ _
  constructor
  · calc calcIntrinsicValue fcf sh nd H (dr + 2) (max (g - 2) 0) (max (tg - 1) 2)
        ≤ calcIntrinsicValue fcf sh nd H (dr + 2) (max (g - 2) 0) tg :=
          calcIntrinsicValue_mono_terminal fcf sh nd H (dr + 2) (max (g - 2) 0)
            (max (tg - 1) 2) tg hfcf hs (by linarith) (by linarith) (by linarith)
            hbt_le (by linarith)
      _ ≤ calcIntrinsicValue fcf sh nd H (dr + 2) g tg :=
          calcIntrinsicValue_mono_growth fcf sh nd H (dr + 2) tg (max (g - 2) 0) g
            hfcf hs (by linarith) hbg_le (by linarith) (by linarith) (by linarith)
      _ ≤ calcIntrinsicValue fcf sh nd H dr g tg :=
          calcIntrinsicValue_anti_discount fcf sh nd H g tg dr (dr + 2)
            hfcf hs (by linarith) (by linarith) (by linarith) (by linarith)
            (by linarith)
  · calc calcIntrinsicValue fcf sh nd H dr g tg
        ≤ calcIntrinsicValue fcf sh nd H (max (dr - 2) 5) g tg :=
          calcIntrinsicValue_anti_discount fcf sh nd H g tg (max (dr - 2) 5) dr
            hfcf hs (by linarith) (by linarith) hud_le (by linarith) (by linarith)
      _ ≤ calcIntrinsicValue fcf sh nd H (max (dr - 2) 5) (min (g + 2) 25) tg :=
          calcIntrinsicValue_mono_growth fcf sh nd H (max (dr - 2) 5) tg g
            (min (g + 2) 25) hfcf hs (by linarith) hug_ge (by linarith)
            (by linarith) (by linarith)
      _ ≤ calcIntrinsicValue fcf sh nd H (max (dr - 2) 5) (min (g + 2) 25)
            (min (tg + 1) 4) :=
          calcIntrinsicValue_mono_terminal fcf sh nd H (max (dr - 2) 5)
            (min (g + 2) 25) tg (min (tg + 1) 4) hfcf hs (by linarith)
            (by linarith) (by linarith) hut_ge (by linarith)


/-- C2 counterexample: at `exC2` the claim's hypotheses hold (WACC = 4.5 >
4.4 = terminal growth, FCF = 1000 > 0), yet the bull intrinsic value is
strictly below the base intrinsic value: the bull discount-rate floor of 5
raises the bull rate above the base rate while the terminal-growth cap of 4
shrinks the bull Gordon denominator advantage. -/
theorem calculateDCF_sensitivity_ordering_counterexample :
    resolveTG exC2.terminalGrowthRate <
      calculateWACC exC2.marketCap exC2.discountRate ∧
    0 < exC2.freeCashFlow ∧
    (calculateDCF exC2).sensitivity.bull.intrinsicValue <
      (calculateDCF exC2).sensitivity.base.intrinsicValue := by
  refine ⟨by norm_num [exC2, calculateWACC, resolveTG], by norm_num [exC2], ?_⟩
  rw [calculateDCF_sensitivity]
  have h1 : calculateWACC exC2.marketCap exC2.discountRate = 9 / 2 := by
    simp [exC2, calculateWACC]
  have h2 : resolveTG exC2.terminalGrowthRate = 22 / 5 := by
    norm_num [exC2, resolveTG]
  have h3 : estimateFCFGrowthRate exC2.revenueGrowth (22 / 5) = 22 / 5 := by
    norm_num [exC2, estimateFCFGrowthRate]
  have h4 : resolveYears exC2.projectionYears = 5 := by
    norm_num [exC2, resolveYears]
  rw [h1, h2, h3, h4]
  have h5 : exC2.freeCashFlow = 1000 := rfl
  have h6 : exC2.sharesOutstanding = 1 := rfl
  have h7 : exC2.totalDebt - exC2.cash = 0 := by norm_num [exC2]
  rw [h5, h6, h7]
  simp only [calculateSensitivity]
  norm_num [calcIntrinsicValue, Finset.sum_range_succ, max_def, min_def]


/-- Witness for the amended C2 at a default-assumption input. -/
theorem calculateDCF_sensitivity_ordering_witness :
    (calculateDCF exC2w).sensitivity.bear.intrinsicValue ≤
      (calculateDCF exC2w).sensitivity.base.intrinsicValue ∧
    (calculateDCF exC2w).sensitivity.base.intrinsicValue ≤
      (calculateDCF exC2w).sensitivity.bull.intrinsicValue :=
  calculateDCF_sensitivity_ordering exC2w
    (by norm_num [exC2w])
    (by norm_num [exC2w])
    (by norm_num [exC2w, calculateWACC])
    (by norm_num [exC2w, resolveTG])
    (by norm_num [exC2w, resolveTG])
    (by norm_num [exC2w, calculateWACC, resolveTG])
    (by norm_num [exC2w, estimateFCFGrowthRate, resolveTG])
    (by norm_num [exC2w, estimateFCFGrowthRate, resolveTG])

/- ======================================================================
   CLAIMS C6, C7, C8, C9, C10
   ====================================================================== -/

/-- C6: an explicit discount-rate override is used unchanged; without one,
the default WACC is the market-cap-tiered lookup (mega > \$200B → 9%,
large > \$50B → 10%, mid > \$10B → 11%, small > \$2B → 12.5%, micro → 14%),
which is non-increasing in market cap; and `calculateDCF` uses exactly
`calculateWACC` for its discount-rate assumption. -/
theorem calculateWACC_tiers (m m1 m2 r : ℚ) (inputs : DCFInputs) :
    calculateWACC m (some r) = r ∧
    (200 * 10 ^ 9 < m → calculateWACC m none = 9) ∧
    (50 * 10 ^ 9 < m → m ≤ 200 * 10 ^ 9 → calculateWACC m none = 10) ∧
    (10 * 10 ^ 9 < m → m ≤ 50 * 10 ^ 9 → calculateWACC m none = 11) ∧
    (2 * 10 ^ 9 < m → m ≤ 10 * 10 ^ 9 → calculateWACC m none = 12.5) ∧
    (m ≤ 2 * 10 ^ 9 → calculateWACC m none = 14) ∧
    (m1 ≤ m2 → calculateWACC m2 none ≤ calculateWACC m1 none) ∧
    (calculateDCF inputs).assumptions.discountRate =
      calculateWACC inputs.marketCap inputs.discountRate := by
  have ht : (0 : ℚ) < 10 ^ 9 := by norm_num
  refine ⟨rfl, ?_, ?_, ?_, ?_, ?_, ?_, rfl⟩
  · intro h1
    simp only [calculateWACC]
    rw [if_pos h1]
    norm_num
  · intro h1 h2
    simp only [calculateWACC]
    rw [if_neg (not_lt.mpr h2), if_pos h1]
    norm_num
  · intro h1 h2
    simp only [calculateWACC]
    rw [if_neg (not_lt.mpr (by linarith)), if_neg (not_lt.mpr h2), if_pos h1]
    norm_num
  · intro h1 h2
    simp only [calculateWACC]
    rw [if_neg (not_lt.mpr (by linarith)), if_neg (not_lt.mpr (by linarith)),
      if_neg (not_lt.mpr h2), if_pos h1]
  · intro h1
    simp only [calculateWACC]
    rw [if_neg (not_lt.mpr (by linarith)), if_neg (not_lt.mpr (by linarith)),
      if_neg (not_lt.mpr (by linarith)), if_neg (not_lt.mpr h1)]
    norm_num
  · intro h12
    simp only [calculateWACC]
    split_ifs <;> linarith

/-- Witness for C6: a \$250B market cap with no override gets the mega-cap
9% rate. -/
theorem calculateWACC_tiers_witness :
    calculateWACC (250 * 10 ^ 9) none = 9 :=
  (calculateWACC_tiers (250 * 10 ^ 9) 0 0 0
    { freeCashFlow := 0, totalDebt := 0, cash := 0, sharesOutstanding := 0,
      marketCap := 0 }).2.1 (by norm_num)

/-- C7: the default FCF growth rate is `min(revenueGrowth, 25) * 0.7 +
terminalGrowth * 0.3` for present non-negative revenue growth, the midpoint
of the terminal growth rate and the fixed moderate-growth constant 8 when
revenue growth is absent, and the terminal growth rate outright when
revenue growth is negative; `calculateDCF` uses exactly this estimate. -/
theorem estimateFCFGrowthRate_cases (r tg : ℚ) (inputs : DCFInputs) :
    (0 ≤ r → estimateFCFGrowthRate (some r) tg = min r 25 * 0.7 + tg * 0.3) ∧
    (estimateFCFGrowthRate none tg = (tg + 8) / 2) ∧
    (r < 0 → estimateFCFGrowthRate (some r) tg = tg) ∧
    (calculateDCF inputs).assumptions.fcfGrowthRate =
      estimateFCFGrowthRate inputs.revenueGrowth
        (resolveTG inputs.terminalGrowthRate) := by
  refine ⟨?_, rfl, ?_, rfl⟩
  · intro hr
    simp only [estimateFCFGrowthRate]
    rw [if_neg (not_lt.mpr (le_min hr (by norm_num)))]
  · intro hr
    simp only [estimateFCFGrowthRate]
    rw [if_pos (lt_of_le_of_lt (min_le_left r 25) hr)]

/-- Witness for C7 at revenue growth 8% and terminal growth 3%. -/
theorem estimateFCFGrowthRate_cases_witness :
    estimateFCFGrowthRate (some 8) 3 = min 8 25 * 0.7 + 3 * 0.3 :=
  (estimateFCFGrowthRate_cases 8 3
    { freeCashFlow := 0, totalDebt := 0, cash := 0, sharesOutstanding := 0,
      marketCap := 0 }).1 (by norm_num)


/-- C8: on the reference input the resolved assumptions are WACC 9%,
terminal growth 3%, FCF growth 6.5%, and the base intrinsic value per
share matches the hand-computed reference 41.905 (exact value
189288124051/4517061152 ≈ 41.90515) within 0.01. -/
theorem calculateDCF_reference_scenario :
    (calculateDCF exC8).assumptions.discountRate = 9 ∧
    (calculateDCF exC8).assumptions.terminalGrowthRate = 3 ∧
    (calculateDCF exC8).assumptions.fcfGrowthRate = 13 / 2 ∧
    |(calculateDCF exC8).intrinsicValue - 41.905| < 0.01 := by
  have h1 : calculateWACC exC8.marketCap exC8.discountRate = 9 := by
    norm_num [exC8, calculateWACC]
  have h2 : resolveTG exC8.terminalGrowthRate = 3 := by
    norm_num [exC8, resolveTG]
  have h3 : estimateFCFGrowthRate exC8.revenueGrowth (3 : ℚ) = 13 / 2 := by
    norm_num [exC8, estimateFCFGrowthRate]
  refine ⟨?_, ?_, ?_, ?_⟩
  · rw [calculateDCF_assumptions]; exact h1
  · rw [calculateDCF_assumptions]; exact h2
  · rw [calculateDCF_assumptions]
    show estimateFCFGrowthRate exC8.revenueGrowth
      (resolveTG exC8.terminalGrowthRate) = 13 / 2
    rw [h2, h3]
  · rw [calculateDCF_intrinsicValue]
    have h4 : resolveYears exC8.projectionYears = 5 := by
      norm_num [exC8, resolveYears]
    rw [h1, h2, h4]
    rw [show estimateFCFGrowthRate exC8.revenueGrowth (3 : ℚ) = 13 / 2 from h3]
    have h5 : exC8.freeCashFlow = 10 * 10 ^ 9 := rfl
    have h6 : exC8.sharesOutstanding = 5 * 10 ^ 9 := rfl
    have h7 : exC8.totalDebt - exC8.cash = -(10 * 10 ^ 9) := by norm_num [exC8]
    rw [h5, h6, h7, abs_lt]
    constructor <;> · norm_num [calcIntrinsicValue, Finset.sum_range_succ]

/-- C10: for every intrinsic value and positive price, `assessValuation`
returns the percentage upside `(intrinsic - price) / price * 100` and a
recommendation that partitions the upside range exactly as claimed:
`≥ 30` Strong Buy, `[15, 30)` Buy, `[-15, 15)` Hold, `[-30, -15)` Sell,
`< -30` Strong Sell. -/
theorem assessValuation_partition (iv p : ℚ) (hp : 0 < p) :
    (assessValuation iv p).1 = (iv - p) / p * 100 ∧
    ((assessValuation iv p).2 = Recommendation.strongBuy ↔
      30 ≤ (assessValuation iv p).1) ∧
    ((assessValuation iv p).2 = Recommendation.buy ↔
      15 ≤ (assessValuation iv p).1 ∧ (assessValuation iv p).1 < 30) ∧
    ((assessValuation iv p).2 = Recommendation.hold ↔
      -15 ≤ (assessValuation iv p).1 ∧ (assessValuation iv p).1 < 15) ∧
    ((assessValuation iv p).2 = Recommendation.sell ↔
      -30 ≤ (assessValuation iv p).1 ∧ (assessValuation iv p).1 < -15) ∧
    ((assessValuation iv p).2 = Recommendation.strongSell ↔
      (assessValuation iv p).1 < -30) := by
  simp only [assessValuation]
  refine ⟨trivial, ?_, ?_, ?_, ?_, ?_⟩ <;>
    split_ifs <;> simp_all <;>
    first
      | linarith
      | (constructor <;> linarith)
      | (intro h'; linarith)

/-- Witness for C10: 30% upside is a Strong Buy. -/
theorem assessValuation_partition_witness :
    (assessValuation 130 100).2 = Recommendation.strongBuy :=
  (assessValuation_partition 130 100 (by norm_num)).2.1.mpr
    (by norm_num [assessValuation])

/-- C9: the persisted schema has exactly the five claimed tables in order;
`holdings` is unique on (portfolio_id, ticker); `transactions` has the
CHECK constraint `action ∈ {BUY, SELL}`; `snapshots` stores the serialized
holdings in the single NOT NULL text column `holdings_data`; and the three
percentage configuration columns of `portfolios` default to 0.10, 0.02 and
0.25, all decimals in [0, 1]. -/
theorem schema_five_tables :
    schemaTables.map SqlTable.name =
      ["portfolios", "holdings", "transactions", "snapshots", "stock_scores"] ∧
    holdingsTable.uniques = [["portfolio_id", "ticker"]] ∧
    transactionsTable.checks = [("action", ["BUY", "SELL"])] ∧
    ((snapshotsTable.columns.filter (fun c => c.name == "holdings_data")).map
      (fun c => (c.ty, c.notNull)) = [(ColType.text, true)]) ∧
    ((portfoliosTable.columns.filter (fun c =>
        c.name == "max_position_pct" || c.name == "min_position_pct" ||
        c.name == "max_sector_pct")).map Column.deflt =
      [some (ColDefault.num 0.10), some (ColDefault.num 0.02),
        some (ColDefault.num 0.25)]) ∧
    ((0 : ℚ) ≤ 0.10 ∧ (0.10 : ℚ) ≤ 1) ∧ ((0 : ℚ) ≤ 0.02 ∧ (0.02 : ℚ) ≤ 1) ∧
    ((0 : ℚ) ≤ 0.25 ∧ (0.25 : ℚ) ≤ 1) := by
  refine ⟨rfl, rfl, rfl, rfl, rfl, ?_, ?_, ?_⟩ <;> constructor <;> norm_num
